import Mathlib

/-!
Shallow embedding of the Food-distribution-portal web application.

The program consists of three React surfaces wired to a Firestore document
store:
* a manager dashboard (inventory table with a restock action, a request
  manager with Approve / Ship / Reset actions implemented by
  `handleStatusUpdate` over a write batch);
* a records portal (role derived from the user-id string, a records
  query filtered for citizens, an in-memory descending sort by timestamp,
  and a manager-only `updateRecordStatus` action);
* a public request form whose `handleSubmit` inserts one new request
  document with status "Pending".

Collections are embedded as lists of documents; a Firestore write batch is a
list of staged update operations applied atomically by `commitBatch`; document
update is a partial field merge on every document carrying the targeted id.
Timestamps (`new Date().toISOString()`) are threaded as an explicit `now`
string; the auto-generated id of `addDoc` is an explicit parameter.
-/

namespace FoodPortal

/-- An inventory document: `item` (name), `quantity`, `unit`, `expiration`,
`lastUpdated`, plus the Firestore document id. -/
structure InventoryItem where
  id : String
  item : String
  quantity : Int
  unit : String
  expiration : String
  lastUpdated : String
deriving DecidableEq, Repr

/-- A distribution-request document. `processedBy` is set to a timestamp by
`handleStatusUpdate` for non-Pending statuses and cleared (null) on reset;
`timestamp` is only present on form-created requests. -/
structure Request where
  id : String
  organization : String
  item : String
  amount : Int
  status : String
  contactEmail : String
  requestedDate : String
  processedBy : Option String
  timestamp : Option String
deriving DecidableEq, Repr

/-- A distribution-record document of the records portal. `timestamp` is the
epoch-milliseconds value used for the in-memory sort. -/
structure DistRecord where
  id : String
  recipientId : String
  foodItem : String
  quantity : Int
  location : String
  status : String
  timestamp : Int
deriving DecidableEq, Repr

/-- The two collections the manager dashboard binds to. -/
structure DashState where
  inventory : List InventoryItem
  requests : List Request
deriving DecidableEq, Repr

/-- A staged operation of a Firestore write batch, as used by
`handleStatusUpdate`: a partial-merge update of a request document or of an
inventory document, addressed by document id. -/
inductive BatchOp where
  | updateRequest (rid : String) (newStatus : String) (processedBy : Option String)
  | updateInventory (iid : String) (newQuantity : Int) (lastUpdated : String)
deriving DecidableEq, Repr

/-- Apply one staged batch operation: a partial field merge on every document
whose id matches (Firestore ids are unique; the map form is the general
semantics of an update addressed by id). -/
def applyOp (s : DashState) : BatchOp → DashState
  | .updateRequest rid st pb =>
      { s with requests := s.requests.map fun r =>
          if r.id == rid then { r with status := st, processedBy := pb } else r }
  | .updateInventory iid q lu =>
      { s with inventory := s.inventory.map fun i =>
          if i.id == iid then { i with quantity := q, lastUpdated := lu } else i }

/-- `batch.commit()`: all staged operations are applied as one atomic state
transition; a reader observes the state before or after the whole fold,
never in between. -/
def commitBatch (ops : List BatchOp) (s : DashState) : DashState :=
  ops.foldl applyOp s

/-- The processedBy field staged by the status update: a fresh ISO timestamp
for every status other than Pending, and null on a reset to Pending. -/
def processedByOf (newStatus : String) (now : String) : Option String :=
  if newStatus ≠ "Pending" then some now else none

/-- `handleStatusUpdate` of the RequestManager of the dashboard: stage the request
status update; if the new status is "Shipped", look up the inventory item by
name and abort (returning without committing, so no staged write applies) when
the item is missing or the decremented quantity would be negative; otherwise
also stage the inventory decrement and commit the batch. -/
def handleStatusUpdate (s : DashState) (requestId requestItem : String)
    (requestAmount : Int) (newStatus : String) (now : String) : DashState :=
  let batch : List BatchOp :=
    [.updateRequest requestId newStatus (processedByOf newStatus now)]
  if newStatus == "Shipped" then
    match s.inventory.find? (fun i => i.item == requestItem) with
    | none => s
    | some inventoryItem =>
      let newQuantity := inventoryItem.quantity - requestAmount
      if newQuantity < 0 then s
      else commitBatch
        (batch ++ [.updateInventory inventoryItem.id newQuantity now]) s
  else commitBatch batch s

/-- `handleUpdateStock` of the InventoryTable of the dashboard: find the item by id,
and update its document with quantity increased by 10 and a fresh
`lastUpdated` timestamp. -/
def handleUpdateStock (s : DashState) (itemId : String) (now : String) : DashState :=
  match s.inventory.find? (fun i => i.id == itemId) with
  | none => s
  | some item =>
    let newQuantity := item.quantity + 10
    { s with inventory := s.inventory.map fun i =>
        if i.id == itemId then { i with quantity := newQuantity, lastUpdated := now } else i }

/-- `isShippable` of the request card: the referenced inventory item exists and
its quantity is at least the requested amount. -/
def isShippable (s : DashState) (r : Request) : Bool :=
  match s.inventory.find? (fun i => i.item == r.item) with
  | some i => decide (r.amount ≤ i.quantity)
  | none => false

/-- Which status-update button the dashboard renders enabled for a request:
Approve on Pending, Ship on Approved (only when shippable), Reset on Approved
or Shipped. Transcribed from the RequestManager JSX guards. -/
def buttonEnabled (s : DashState) (r : Request) (newStatus : String) : Bool :=
  (r.status == "Pending" && newStatus == "Approved")
  || (r.status == "Approved" && newStatus == "Shipped" && isShippable s r)
  || ((r.status == "Approved" || r.status == "Shipped") && newStatus == "Pending")

/-- One status-update action the dashboard can trigger: a click on a rendered,
enabled button of the request card with id `rid`, which calls
`handleStatusUpdate` with the item and amount of that request. When no such button
is rendered enabled, no action is possible and the state is unchanged. -/
def dashStep (s : DashState) (rid newStatus now : String) : DashState :=
  match s.requests.find? (fun r => r.id == rid) with
  | none => s
  | some r =>
    if buttonEnabled s r newStatus then
      handleStatusUpdate s r.id r.item r.amount newStatus now
    else s

/-- The transition set named by the specification:
Pending→Approved, Approved→Shipped, Approved→Pending, Shipped→Pending. -/
def allowedTransition (old new : String) : Bool :=
  (old == "Pending" && new == "Approved")
  || (old == "Approved" && new == "Shipped")
  || ((old == "Approved" || old == "Shipped") && new == "Pending")

/-- Boolean test that `p` occurs at the start of `s` — the JS startsWith used
by the role checks — computed over the character lists so the kernel can
evaluate it on concrete identifiers. -/
def startsWithChars (s p : String) : Bool :=
  s.toList.take p.toList.length == p.toList

/-- Role check of the records portal: the user id starts with "manager-". -/
def isManager (userId : String) : Bool :=
  startsWithChars userId "manager-"

/-- Role check of the records portal: the user id starts with "citizen-". -/
def isCitizen (userId : String) : Bool :=
  startsWithChars userId "citizen-"

/-- The records query built by the portal: for a citizen session the query
carries an equality filter of recipientId against the user id; otherwise the whole
collection. -/
def recordsQuery (store : List DistRecord) (userId : String) : List DistRecord :=
  if isCitizen userId then store.filter (fun r => r.recipientId == userId)
  else store

/-- The in-memory sort of the records snapshot handler:
`sort((a, b) => b.timestamp.getTime() - a.timestamp.getTime())`,
newest first (JS sort is stable; mergeSort models it). -/
def sortRecordsDesc (l : List DistRecord) : List DistRecord :=
  l.mergeSort (fun a b => decide (b.timestamp ≤ a.timestamp))

/-- The records-portal `onSnapshot` callback: map the delivered docs and sort
them in memory, newest first, before handing them to rendering. -/
def recordsSnapshotHandler (docs : List DistRecord) : List DistRecord :=
  sortRecordsDesc docs

/-- The list the records portal renders for a session: the snapshot of its
role-dependent query, passed through the snapshot handler. -/
def recordsFeedRender (store : List DistRecord) (userId : String) : List DistRecord :=
  recordsSnapshotHandler (recordsQuery store userId)

/-- The inventory `onSnapshot` callback of the dashboard: the delivered docs are
mapped and handed to rendering as delivered, with no client-side sort. -/
def inventorySnapshotHandler (docs : List InventoryItem) : List InventoryItem :=
  docs

/-- The requests `onSnapshot` callback of the dashboard: the delivered docs are
mapped and handed to rendering as delivered, with no client-side sort. -/
def requestsSnapshotHandler (docs : List Request) : List Request :=
  docs

/-- `updateRecordStatus` of the records portal: guarded by `isManager`; when
allowed, a partial-merge update of the status of the addressed record. -/
def updateRecordStatus (store : List DistRecord) (userId recordId newStatus : String) :
    List DistRecord :=
  if isManager userId then
    store.map fun r => if r.id == recordId then { r with status := newStatus } else r
  else store

/-- The state of the public request form: `amount` holds the value of
`parseInt(amount)` applied to the numeric input (the form constrains the field
to a number with minimum 1). -/
structure NewRequestForm where
  organizationName : String
  requestedItem : String
  amount : Int
  contactEmail : String
deriving DecidableEq, Repr

/-- The date half of an ISO timestamp, as computed by splitting on the letter
T and taking the first component: the characters before the first T (the whole
string when no T occurs), exactly what the form code computes from
`new Date().toISOString()`. -/
def isoDatePart (iso : String) : String :=
  (iso.toList.takeWhile (fun c => !(c == 'T'))).asString

/-- The document built by `handleSubmit` of the form: form fields, status
"Pending", requested date of the submission day, submission timestamp. -/
def newRequestDoc (f : NewRequestForm) (newId now : String) : Request :=
  { id := newId
    organization := f.organizationName
    item := f.requestedItem
    amount := f.amount
    contactEmail := f.contactEmail
    status := "Pending"
    requestedDate := isoDatePart now
    processedBy := none
    timestamp := some now }

/-- The success path of `handleSubmit` of the form: `addDoc` appends one new document
with an auto-generated id to the requests collection. -/
def handleSubmit (store : List Request) (f : NewRequestForm) (newId now : String) :
    List Request :=
  store ++ [newRequestDoc f newId now]

/-! Concrete documents and states used to instantiate the theorems, taken from
the seed data of the dashboard and the scenarios of the specification. -/

/-- The seeded Dry Pasta inventory document with 600 boxes. -/
def pastaItem : InventoryItem :=
  { id := "i1", item := "Dry Pasta", quantity := 600, unit := "boxes",
    expiration := "2027-01-20", lastUpdated := "2025-10-01T00:00:00.000Z" }

/-- The seeded approved request for 100 units of Dry Pasta. -/
def pastaRequest : Request :=
  { id := "r1", organization := "Food Bank Central", item := "Dry Pasta",
    amount := 100, status := "Approved", contactEmail := "",
    requestedDate := "2025-10-07", processedBy := none, timestamp := none }

/-- The sufficient-stock shipping scenario of the specification. -/
def shipScenario : DashState :=
  { inventory := [pastaItem], requests := [pastaRequest] }

/-- The Dry Pasta document with only 5 boxes left. -/
def lowPastaItem : InventoryItem := { pastaItem with quantity := 5 }

/-- An approved request for 10 units of Dry Pasta. -/
def lowRequest : Request := { pastaRequest with amount := 10 }

/-- The insufficient-stock scenario of the specification. -/
def lowScenario : DashState :=
  { inventory := [lowPastaItem], requests := [lowRequest] }

/-- A state whose inventory holds no document at all, so any shipped item name
is unmatched. -/
def missingItemScenario : DashState :=
  { inventory := [], requests := [pastaRequest] }

/-- A request already shipped, used to exercise transitions out of Shipped. -/
def shippedRequest : Request := { pastaRequest with status := "Shipped" }

/-- A state holding one shipped request. -/
def shippedScenario : DashState :=
  { inventory := [pastaItem], requests := [shippedRequest] }

/-- A distribution record owned by the citizen-abc session. -/
def recA : DistRecord :=
  { id := "d1", recipientId := "citizen-abc", foodItem := "Rice (5kg)",
    quantity := 1, location := "Central Hub A", status := "Pending", timestamp := 100 }

/-- A distribution record owned by a different citizen session. -/
def recB : DistRecord :=
  { id := "d2", recipientId := "citizen-xyz", foodItem := "Beans (1kg)",
    quantity := 3, location := "Local Center B", status := "Completed", timestamp := 200 }

/-- A two-owner distribution-records collection. -/
def sampleRecords : List DistRecord := [recA, recB]

/-- An inventory document last updated in January. -/
def staleItem : InventoryItem :=
  { pastaItem with id := "a", lastUpdated := "2025-01-01T00:00:00.000Z" }

/-- An inventory document last updated in February, newer than `staleItem`. -/
def freshItem : InventoryItem :=
  { pastaItem with id := "b", lastUpdated := "2025-02-01T00:00:00.000Z" }

/-! Helper lemmas shared by the claim theorems. -/

/-- In a list whose keys are pairwise distinct, the first document found by
key equality is the member itself. -/
theorem find?_key_self {α : Type} (key : α → String) {l : List α}
    (h : (l.map key).Nodup) {a : α} (ha : a ∈ l) :
    l.find? (fun x => key x == key a) = some a := by
  have hs : (l.find? (fun x => key x == key a)).isSome :=
    List.find?_isSome.mpr ⟨a, ha, by simp⟩
  obtain ⟨b, hb⟩ := Option.isSome_iff_exists.mp hs
  have hbmem := List.mem_of_find?_eq_some hb
  have hbkey : key b = key a := by simpa using List.find?_some hb
  rw [hb]
  exact congrArg some (List.inj_on_of_nodup_map h hbmem ha hbkey)

/-- `handleStatusUpdate` either leaves the requests collection unchanged
(the two abort paths) or applies exactly the staged status update to the
documents carrying the targeted request id. -/
theorem handleStatusUpdate_requests (s : DashState) (rid reqItem : String)
    (amt : Int) (ns now : String) :
    (handleStatusUpdate s rid reqItem amt ns now).requests = s.requests ∨
    (handleStatusUpdate s rid reqItem amt ns now).requests =
      s.requests.map (fun q =>
        if q.id == rid then { q with status := ns, processedBy := processedByOf ns now }
        else q) := by
  unfold handleStatusUpdate
  by_cases hns : (ns == "Shipped") = true
  · rw [if_pos hns]
    cases hf : s.inventory.find? (fun i => i.item == reqItem) with
    | none => exact Or.inl rfl
    | some it =>
      dsimp only
      by_cases hq : it.quantity - amt < 0
      · rw [if_pos hq]; exact Or.inl rfl
      · rw [if_neg hq]; exact Or.inr rfl
  · rw [if_neg hns]
    exact Or.inr rfl

/-- An enabled dashboard button only ever submits a transition of the allowed
set. -/
theorem buttonEnabled_imp_allowed (s : DashState) (r : Request) (ns : String)
    (h : buttonEnabled s r ns = true) : allowedTransition r.status ns = true := by
  simp only [buttonEnabled, Bool.or_eq_true, Bool.and_eq_true] at h
  simp only [allowedTransition, Bool.or_eq_true, Bool.and_eq_true]
  tauto

/-- Elements of an id-addressed inventory update: a document carrying the
targeted id got the new quantity; a document carrying another id is an
untouched member of the old list. -/
theorem inv_update_spec {l : List InventoryItem} (iid : String) (q : Int) (lu : String) :
    ∀ i ∈ l.map (fun j =>
        if j.id == iid then { j with quantity := q, lastUpdated := lu } else j),
      (i.id = iid → i.quantity = q) ∧ (i.id ≠ iid → i ∈ l) := by
  intro i hi
  rcases List.mem_map.mp hi with ⟨j, hj, rfl⟩
  by_cases h : (j.id == iid) = true
  · rw [if_pos h]
    exact ⟨fun _ => rfl, fun hne => absurd (by simpa using h) hne⟩
  · rw [if_neg h]
    exact ⟨fun hid => absurd (by simp [hid]) h, fun _ => hj⟩

/-- Elements of an id-addressed request status update: a document carrying the
targeted id got the new status; a document carrying another id is an untouched
member of the old list. -/
theorem req_update_spec {l : List Request} (rid ns : String) (pb : Option String) :
    ∀ q ∈ l.map (fun x =>
        if x.id == rid then { x with status := ns, processedBy := pb } else x),
      (q.id = rid → q.status = ns) ∧ (q.id ≠ rid → q ∈ l) := by
  intro q hq
  rcases List.mem_map.mp hq with ⟨x, hx, rfl⟩
  by_cases h : (x.id == rid) = true
  · rw [if_pos h]
    exact ⟨fun _ => rfl, fun hne => absurd (by simpa using h) hne⟩
  · rw [if_neg h]
    exact ⟨fun hid => absurd (by simp [hid]) h, fun _ => hx⟩

/-- C1: a successful Ship action on an approved request whose referenced
inventory item exists with sufficient quantity commits one atomic two-write
batch — the post-state is `commitBatch` of exactly the status write and the
inventory write applied to the pre-state, so a read sees the pre-state or
both changes, never one — and in the post-state the shipped item carries
quantity before minus requested amount while the request carries status
"Shipped". -/
theorem ship_success_atomic (s : DashState) (r : Request) (it : InventoryItem)
    (now : String) (hr : r ∈ s.requests) (hst : r.status = "Approved")
    (hfind : s.inventory.find? (fun i => i.item == r.item) = some it)
    (hsuff : r.amount ≤ it.quantity) :
    handleStatusUpdate s r.id r.item r.amount "Shipped" now
      = commitBatch
          [BatchOp.updateRequest r.id "Shipped" (processedByOf "Shipped" now),
           BatchOp.updateInventory it.id (it.quantity - r.amount) now] s
    ∧ (∀ i ∈ (handleStatusUpdate s r.id r.item r.amount "Shipped" now).inventory,
        i.id = it.id → i.quantity = it.quantity - r.amount)
    ∧ (∀ q ∈ (handleStatusUpdate s r.id r.item r.amount "Shipped" now).requests,
        q.id = r.id → q.status = "Shipped") := by
  have hnn : ¬ it.quantity - r.amount < 0 := by omega
  have hE : handleStatusUpdate s r.id r.item r.amount "Shipped" now
      = commitBatch
          [BatchOp.updateRequest r.id "Shipped" (processedByOf "Shipped" now),
           BatchOp.updateInventory it.id (it.quantity - r.amount) now] s := by
    unfold handleStatusUpdate
    have hcond : (("Shipped" : String) == "Shipped") = true := rfl
    rw [if_pos hcond, hfind]
    dsimp only
    rw [if_neg hnn]
    rfl
  have hinv : (commitBatch
        [BatchOp.updateRequest r.id "Shipped" (processedByOf "Shipped" now),
         BatchOp.updateInventory it.id (it.quantity - r.amount) now] s).inventory
      = s.inventory.map (fun j =>
          if j.id == it.id then
            { j with quantity := it.quantity - r.amount, lastUpdated := now }
          else j) := rfl
  have hreq : (commitBatch
        [BatchOp.updateRequest r.id "Shipped" (processedByOf "Shipped" now),
         BatchOp.updateInventory it.id (it.quantity - r.amount) now] s).requests
      = s.requests.map (fun x =>
          if x.id == r.id then
            { x with status := "Shipped", processedBy := processedByOf "Shipped" now }
          else x) := rfl
  refine ⟨hE, ?_, ?_⟩
  · intro i hi hid
    rw [hE, hinv] at hi
    exact (inv_update_spec it.id (it.quantity - r.amount) now i hi).1 hid
  · intro q hq hid
    rw [hE, hreq] at hq
    exact (req_update_spec r.id "Shipped" (processedByOf "Shipped" now) q hq).1 hid

/-- Witness for C1 at the scenario of the specification: Dry Pasta at 600
boxes and an approved request for 100 yield quantity 500 and status
"Shipped". -/
theorem ship_success_atomic_witness :
    ((handleStatusUpdate shipScenario pastaRequest.id pastaRequest.item
        pastaRequest.amount "Shipped" "2025-10-12T00:00:00.000Z").inventory.map
          (fun i => i.quantity) = [500]
      ∧ (handleStatusUpdate shipScenario pastaRequest.id pastaRequest.item
          pastaRequest.amount "Shipped" "2025-10-12T00:00:00.000Z").requests.map
            (fun q => q.status) = ["Shipped"])
    ∧ (∀ q ∈ (handleStatusUpdate shipScenario pastaRequest.id pastaRequest.item
        pastaRequest.amount "Shipped" "2025-10-12T00:00:00.000Z").requests,
        q.id = pastaRequest.id → q.status = "Shipped") :=
  ⟨by decide,
   (ship_success_atomic shipScenario pastaRequest pastaItem "2025-10-12T00:00:00.000Z"
      (by decide) rfl (by decide) (by decide)).2.2⟩

/-- C2: a Ship action on an approved request whose referenced inventory item
exists with quantity strictly below the requested amount aborts before the
batch commits: neither collection changes, and in particular the staged
status update is never applied. -/
theorem ship_insufficient_rejected (s : DashState) (r : Request) (it : InventoryItem)
    (now : String) (hr : r ∈ s.requests) (hst : r.status = "Approved")
    (hfind : s.inventory.find? (fun i => i.item == r.item) = some it)
    (hlt : it.quantity < r.amount) :
    handleStatusUpdate s r.id r.item r.amount "Shipped" now = s := by
  unfold handleStatusUpdate
  have hcond : (("Shipped" : String) == "Shipped") = true := rfl
  rw [if_pos hcond, hfind]
  dsimp only
  rw [if_pos (by omega : it.quantity - r.amount < 0)]

/-- Witness for C2 at the scenario of the specification: Dry Pasta at 5 boxes
and an approved request for 10 leave quantity 5 and status "Approved". -/
theorem ship_insufficient_rejected_witness :
    (lowScenario.inventory.map (fun i => i.quantity) = [5]
      ∧ lowScenario.requests.map (fun q => q.status) = ["Approved"])
    ∧ handleStatusUpdate lowScenario lowRequest.id lowRequest.item lowRequest.amount
        "Shipped" "2025-10-12T00:00:00.000Z" = lowScenario :=
  ⟨by decide,
   ship_insufficient_rejected lowScenario lowRequest lowPastaItem
     "2025-10-12T00:00:00.000Z" (by decide) rfl (by decide) (by decide)⟩

/-- C9: a Ship action whose request item name matches no inventory document
aborts before the batch commits and leaves the whole state unchanged, the
already-staged request status update included. -/
theorem ship_missing_item_noop (s : DashState) (rid reqItem : String) (amt : Int)
    (now : String)
    (hfind : s.inventory.find? (fun i => i.item == reqItem) = none) :
    handleStatusUpdate s rid reqItem amt "Shipped" now = s := by
  unfold handleStatusUpdate
  have hcond : (("Shipped" : String) == "Shipped") = true := rfl
  rw [if_pos hcond, hfind]

/-- Witness for C9: shipping against an empty inventory changes nothing. -/
theorem ship_missing_item_noop_witness :
    handleStatusUpdate missingItemScenario pastaRequest.id pastaRequest.item
      pastaRequest.amount "Shipped" "2025-10-12T00:00:00.000Z" = missingItemScenario :=
  ship_missing_item_noop missingItemScenario pastaRequest.id pastaRequest.item
    pastaRequest.amount "2025-10-12T00:00:00.000Z" (by decide)

/-- C10: a session whose identifier does not resolve to the manager role
performs no write through the record status-update action: the records
collection is returned unchanged for every record id and status. -/
theorem nonmanager_record_update_noop (store : List DistRecord)
    (uid rid ns : String) (h : isManager uid = false) :
    updateRecordStatus store uid rid ns = store := by
  unfold updateRecordStatus
  rw [h]
  rfl

/-- Witness for C10: a citizen session attempting to complete a foreign
record leaves the collection unchanged. -/
theorem nonmanager_record_update_noop_witness :
    isManager "citizen-abc" = false
    ∧ updateRecordStatus sampleRecords "citizen-abc" "d2" "Completed" = sampleRecords :=
  ⟨by decide,
   nonmanager_record_update_noop sampleRecords "citizen-abc" "d2" "Completed" (by decide)⟩

/-- C8: starting from inventory whose quantities are all non-negative, every
restock action and every status-update action (shipping included, successful
or aborted) preserves non-negativity of every inventory quantity. -/
theorem inventory_nonneg_preserved (s : DashState)
    (hpos : ∀ i ∈ s.inventory, 0 ≤ i.quantity) :
    (∀ itemId now, ∀ i ∈ (handleUpdateStock s itemId now).inventory, 0 ≤ i.quantity)
    ∧ (∀ rid reqItem amt ns now,
        ∀ i ∈ (handleStatusUpdate s rid reqItem (amt : Int) ns now).inventory,
          0 ≤ i.quantity) := by
  constructor
  · intro itemId now i hi
    unfold handleUpdateStock at hi
    cases hf : s.inventory.find? (fun x => x.id == itemId) with
    | none =>
      rw [hf] at hi
      exact hpos i hi
    | some it =>
      rw [hf] at hi
      dsimp only at hi
      rcases List.mem_map.mp hi with ⟨j, hj, rfl⟩
      by_cases h : (j.id == itemId) = true
      · rw [if_pos h]
        have := hpos it (List.mem_of_find?_eq_some hf)
        dsimp only
        omega
      · rw [if_neg h]
        exact hpos j hj
  · intro rid reqItem amt ns now i hi
    unfold handleStatusUpdate at hi
    by_cases hns : (ns == "Shipped") = true
    · rw [if_pos hns] at hi
      cases hf : s.inventory.find? (fun x => x.item == reqItem) with
      | none =>
        rw [hf] at hi
        exact hpos i hi
      | some it =>
        rw [hf] at hi
        dsimp only at hi
        by_cases hq : it.quantity - amt < 0
        · rw [if_pos hq] at hi
          exact hpos i hi
        · rw [if_neg hq] at hi
          rcases List.mem_map.mp hi with ⟨j, hj, rfl⟩
          by_cases h : (j.id == it.id) = true
          · rw [if_pos h]
            dsimp only
            omega
          · rw [if_neg h]
            exact hpos j hj
    · rw [if_neg hns] at hi
      exact hpos i hi

/-- Witness for C8: the seeded scenario has non-negative stock, and both a
restock and a successful shipment keep every quantity non-negative. -/
theorem inventory_nonneg_preserved_witness :
    (∀ i ∈ shipScenario.inventory, 0 ≤ i.quantity)
    ∧ (∀ i ∈ (handleUpdateStock shipScenario "i1" "2025-10-12T00:00:00.000Z").inventory,
        0 ≤ i.quantity)
    ∧ (∀ i ∈ (handleStatusUpdate shipScenario "r1" "Dry Pasta" 100 "Shipped"
        "2025-10-12T00:00:00.000Z").inventory, 0 ≤ i.quantity) :=
  ⟨by decide,
   (inventory_nonneg_preserved shipScenario (by decide)).1 "i1" "2025-10-12T00:00:00.000Z",
   (inventory_nonneg_preserved shipScenario (by decide)).2 "r1" "Dry Pasta" 100 "Shipped"
     "2025-10-12T00:00:00.000Z"⟩

/-- C3: over the step relation formed by the status-update actions of the
dashboard (ids unique, as the store guarantees), a request whose current
status does not admit the attempted new status under
{Pending→Approved, Approved→Shipped, Approved→Pending, Shipped→Pending}
keeps its status across the step, whichever request the action targets. -/
theorem request_transitions_restricted (s : DashState) (rid ns now : String)
    (hnodup : (s.requests.map (fun q => q.id)).Nodup)
    (r : Request) (hr : r ∈ s.requests)
    (hnot : allowedTransition r.status ns = false) :
    ∀ q ∈ (dashStep s rid ns now).requests, q.id = r.id → q.status = r.status := by
  have base : ∀ x ∈ s.requests, x.id = r.id → x.status = r.status := by
    intro x hx hxid
    have hxe : x = r := List.inj_on_of_nodup_map hnodup hx hr hxid
    rw [hxe]
  intro q hq hid
  unfold dashStep at hq
  cases hf : s.requests.find? (fun x => x.id == rid) with
  | none =>
    rw [hf] at hq
    exact base q hq hid
  | some r0 =>
    rw [hf] at hq
    dsimp only at hq
    by_cases hb : buttonEnabled s r0 ns = true
    · rw [if_pos hb] at hq
      have hr0mem := List.mem_of_find?_eq_some hf
      have hne : r.id ≠ r0.id := by
        intro he
        have heq : r = r0 := List.inj_on_of_nodup_map hnodup hr hr0mem he
        have hba := buttonEnabled_imp_allowed s r0 ns hb
        rw [heq] at hnot
        simp [hba] at hnot
      rcases handleStatusUpdate_requests s r0.id r0.item r0.amount ns now with hE | hE
      · rw [hE] at hq
        exact base q hq hid
      · rw [hE] at hq
        have hqne : q.id ≠ r0.id := by
          rw [hid]
          exact hne
        exact base q ((req_update_spec r0.id ns (processedByOf ns now) q hq).2 hqne) hid
    · rw [if_neg hb] at hq
      exact base q hq hid

/-- Witness for C3: attempting Shipped→Approved — a pair outside the allowed
set — leaves the status of the shipped request unchanged. -/
theorem request_transitions_restricted_witness :
    allowedTransition shippedRequest.status "Approved" = false
    ∧ (∀ q ∈ (dashStep shippedScenario "r1" "Approved" "2025-10-12T00:00:00.000Z").requests,
        q.id = shippedRequest.id → q.status = shippedRequest.status) :=
  ⟨by decide,
   request_transitions_restricted shippedScenario "r1" "Approved" "2025-10-12T00:00:00.000Z"
     (by decide) shippedRequest (by decide) (by decide)⟩

/-- C4: for a citizen session, the set of records the portal renders is
exactly the subset of the store whose recipientId equals the session
identifier — a record with another recipientId is never in the rendered
list. -/
theorem citizen_rendered_set (store : List DistRecord) (uid : String)
    (hc : isCitizen uid = true) :
    ∀ rec, rec ∈ recordsFeedRender store uid ↔ rec ∈ store ∧ rec.recipientId = uid := by
  intro rec
  unfold recordsFeedRender recordsSnapshotHandler sortRecordsDesc recordsQuery
  rw [if_pos hc, List.mem_mergeSort]
  simp [List.mem_filter]

/-- Witness for C4: the citizen-abc session renders its own record and not
the record of citizen-xyz. -/
theorem citizen_rendered_set_witness :
    isCitizen "citizen-abc" = true
    ∧ (recA ∈ recordsFeedRender sampleRecords "citizen-abc"
        ↔ recA ∈ sampleRecords ∧ recA.recipientId = "citizen-abc")
    ∧ (recB ∈ recordsFeedRender sampleRecords "citizen-abc"
        ↔ recB ∈ sampleRecords ∧ recB.recipientId = "citizen-abc") :=
  ⟨by decide,
   citizen_rendered_set sampleRecords "citizen-abc" (by decide) recA,
   citizen_rendered_set sampleRecords "citizen-abc" (by decide) recB⟩

/-- C5: a successful submission of the public form appends exactly one new
request document — existing documents are untouched members of the result —
whose status is "Pending", whose requested date is the date half of the
submission timestamp, and whose organization, item, amount (the parsed
integer) and contact email come from the form fields. -/
theorem submission_inserts_pending (store : List Request) (f : NewRequestForm)
    (newId now : String) :
    handleSubmit store f newId now = store ++ [newRequestDoc f newId now]
    ∧ (∀ r ∈ store, r ∈ handleSubmit store f newId now)
    ∧ (handleSubmit store f newId now).length = store.length + 1
    ∧ (newRequestDoc f newId now).status = "Pending"
    ∧ (newRequestDoc f newId now).requestedDate = isoDatePart now
    ∧ (newRequestDoc f newId now).organization = f.organizationName
    ∧ (newRequestDoc f newId now).item = f.requestedItem
    ∧ (newRequestDoc f newId now).amount = f.amount
    ∧ (newRequestDoc f newId now).contactEmail = f.contactEmail := by
  refine ⟨rfl, ?_, ?_, rfl, rfl, rfl, rfl, rfl, rfl⟩
  · intro r hr
    exact List.mem_append_left _ hr
  · simp [handleSubmit]

/-- Counterexample to C6 as stated: the delivered inventory snapshot of the
dashboard is handed to rendering in store order — here an older document
before a newer one — so the list of that feed is not sorted by timestamp in
descending order. -/
theorem dashboard_feed_unsorted_cex :
    ¬ List.Sorted (fun a b : InventoryItem => b.lastUpdated ≤ a.lastUpdated)
        (inventorySnapshotHandler [staleItem, freshItem]) := by
  intro h
  have h1 : freshItem.lastUpdated ≤ staleItem.lastUpdated :=
    (List.sorted_cons.mp h).1 freshItem (by simp)
  have h2 := String.le_iff_toList_le.mp h1
  revert h2
  decide

/-- C6 amended: only the records feed of the portal re-derives a descending
timestamp order from every delivered snapshot; the inventory and requests
feeds of the dashboard hand each snapshot to rendering in delivered order
with no client-side sort. -/
theorem feeds_sort_behavior (docs : List DistRecord) (inv : List InventoryItem)
    (reqs : List Request) :
    List.Sorted (fun a b : DistRecord => b.timestamp ≤ a.timestamp)
      (recordsSnapshotHandler docs)
    ∧ inventorySnapshotHandler inv = inv
    ∧ requestsSnapshotHandler reqs = reqs := by
  refine ⟨?_, rfl, rfl⟩
  have h := @List.sorted_mergeSort DistRecord
      (fun a b : DistRecord => decide (b.timestamp ≤ a.timestamp))
      (fun a b c hab hbc => by
        simp only [decide_eq_true_eq] at hab hbc ⊢
        exact le_trans hbc hab)
      (fun a b => by
        simp only [Bool.or_eq_true, decide_eq_true_eq]
        exact le_total _ _)
      docs
  unfold recordsSnapshotHandler sortRecordsDesc
  exact h.imp (fun hab => by simpa using hab)

/-- Counterexample to C7 as stated: restocking the Dry Pasta document also
rewrites its lastUpdated field, so a field other than quantity is modified. -/
theorem restock_modifies_lastUpdated_cex :
    (handleUpdateStock shipScenario "i1" "2025-11-01T00:00:00.000Z").inventory.map
        (fun x => x.lastUpdated)
      ≠ shipScenario.inventory.map (fun x => x.lastUpdated) := by
  decide

/-- C7 amended: for an inventory item present in a collection with unique ids,
the restock action updates that document to carry quantity increased by
exactly 10 and a fresh lastUpdated timestamp, with every other field intact;
every other document is untouched, no document is created or deleted, and the
requests collection is unchanged. -/
theorem restock_plus_ten (s : DashState) (i : InventoryItem) (now : String)
    (hnodup : (s.inventory.map (fun x => x.id)).Nodup) (hi : i ∈ s.inventory) :
    { i with quantity := i.quantity + 10, lastUpdated := now }
        ∈ (handleUpdateStock s i.id now).inventory
    ∧ (∀ j ∈ s.inventory, j.id ≠ i.id → j ∈ (handleUpdateStock s i.id now).inventory)
    ∧ (handleUpdateStock s i.id now).inventory.length = s.inventory.length
    ∧ (handleUpdateStock s i.id now).requests = s.requests := by
  have hfind : s.inventory.find? (fun x => x.id == i.id) = some i :=
    find?_key_self (fun x => x.id) hnodup hi
  have hE : (handleUpdateStock s i.id now).inventory
      = s.inventory.map (fun j =>
          if j.id == i.id then
            { j with quantity := i.quantity + 10, lastUpdated := now }
          else j) := by
    unfold handleUpdateStock
    rw [hfind]
  have hreq : (handleUpdateStock s i.id now).requests = s.requests := by
    unfold handleUpdateStock
    rw [hfind]
  refine ⟨?_, ?_, ?_, hreq⟩
  · rw [hE]
    refine List.mem_map.mpr ⟨i, hi, ?_⟩
    rw [if_pos (by simp)]
  · intro j hj hne
    rw [hE]
    refine List.mem_map.mpr ⟨j, hj, ?_⟩
    rw [if_neg (by simpa using hne)]
  · rw [hE, List.length_map]

/-- Witness for C7 amended: restocking the 600-box Dry Pasta document yields
the same document at 610 boxes with the new timestamp, and the requests
collection is unchanged. -/
theorem restock_plus_ten_witness :
    ({ pastaItem with
        quantity := pastaItem.quantity + 10
        lastUpdated := "2025-11-01T00:00:00.000Z" }
      ∈ (handleUpdateStock shipScenario pastaItem.id "2025-11-01T00:00:00.000Z").inventory)
    ∧ (handleUpdateStock shipScenario pastaItem.id "2025-11-01T00:00:00.000Z").requests
        = shipScenario.requests :=
  ⟨(restock_plus_ten shipScenario pastaItem "2025-11-01T00:00:00.000Z"
      (by decide) (by decide)).1,
   (restock_plus_ten shipScenario pastaItem "2025-11-01T00:00:00.000Z"
      (by decide) (by decide)).2.2.2⟩

end FoodPortal
